import Mathlib

/-!
Shallow embedding of the IMEI bot-manager core (Python sources under `app/`):
the Ledger (`app/services/database.py`), the Validator
(`app/services/imei_validator.py`), the Verification Client
(`app/services/imei_checker.py`), the Response Formatter
(`app/services/response_formatter.py`) and the Orchestrator transaction
(`IMEIBot.handle_imei_input` in `app/bot/bot_manager.py`).

Money amounts (Python `float` fields holding decimal dollar values) are
modelled as rationals; timestamps (`datetime.now().strftime(...)`) are passed
in explicitly as strings; the mutable `self.users` dict is modelled as a
function `Int → Option UserData` threaded through the operations.
-/

namespace App

/-- Python `s[:n]` on a `str` (character-based slice). -/
def pyTake (s : String) (n : Nat) : String := String.mk (s.toList.take n)

/-- Python `s[-n:]` on a `str`: the last `n` characters (the whole string
when it is shorter than `n`). -/
def pyTakeRight (s : String) (n : Nat) : String :=
  String.mk (s.toList.drop (s.toList.length - n))

/-- `app/models/user.py` `UserData` dataclass. -/
structure QueryRecord where
  date : String
  service : String
  price : ℚ
  imei : String
  success : Bool
deriving DecidableEq, Repr

/-- `app/models/user.py` `UserData` dataclass (balance as a rational). -/
structure UserData where
  user_id : Int
  username : Option String
  first_name : Option String
  last_name : Option String
  join_date : String
  last_activity : String
  total_queries : Nat := 0
  balance : ℚ := 0
  query_history : List QueryRecord := []
deriving DecidableEq, Repr

/-- The `UserDatabase.users : Dict[int, UserData]` mapping. -/
abbrev Store : Type := Int → Option UserData

/-- Overwrite one key of the user store (`self.users[user_id] = ...` /
in-place mutation of the stored dataclass). -/
def Store.set (db : Store) (uid : Int) (u : UserData) : Store :=
  fun k => if k = uid then some u else db k

/-- `UserDatabase.get_or_create_user` (`app/services/database.py`): returns
the (possibly created) user together with the updated store.  `now` stands
for `datetime.now().strftime("%Y-%m-%d %H:%M:%S")`. -/
def get_or_create_user (db : Store) (now : String) (user_id : Int)
    (username first_name last_name : Option String) : Store × UserData :=
  match db user_id with
  | none =>
      let u : UserData :=
        { user_id := user_id, username := username, first_name := first_name,
          last_name := last_name, join_date := now, last_activity := now }
      (Store.set db user_id u, u)
  | some user =>
      let u : UserData :=
        { user with
          username := username,
          first_name := first_name,
          last_name := last_name,
          last_activity := now }
      (Store.set db user_id u, u)

/-- `UserDatabase.update_user_query` (`app/services/database.py`, the
Ledger's `recordQuery`): if the user exists, increment `total_queries`,
debit `price` only when `success`, append a query record storing only the
last 4 characters of `imei`, and trim the history to the last 50 entries.
Unknown users fall through silently. -/
def update_user_query (db : Store) (now : String) (user_id : Int)
    (service_title : String) (price : ℚ) (imei : String) (success : Bool) :
    Store :=
  match db user_id with
  | none => db
  | some user =>
      let user := { user with total_queries := user.total_queries + 1 }
      let user :=
        if success then { user with balance := user.balance - price } else user
      let query_record : QueryRecord :=
        { date := now, service := service_title, price := price,
          imei := pyTakeRight imei 4, success := success }
      let hist := user.query_history ++ [query_record]
      let hist := if hist.length > 50 then hist.drop (hist.length - 50) else hist
      Store.set db user_id { user with query_history := hist }

/-- `re.sub(r'[^\d]', '', imei)`: keep only the digit characters. -/
def cleanIMEI (imei : String) : String :=
  String.mk (imei.toList.filter Char.isDigit)

/-- Python `str.isdigit()`: nonempty and all digits. -/
def pyIsdigit (s : String) : Bool := !s.toList.isEmpty && s.toList.all Char.isDigit

/-- Python `int(digit)` for a single digit character. -/
def pyDigit (c : Char) : Nat := c.toNat - 48

/-- One step of the Luhn loop body: digits at odd positions of the reversed
string are doubled and, when the double exceeds 9, folded by summing its two
decimal digits. -/
def luhnStep (i n : Nat) : Nat :=
  if i % 2 = 1 then
    let m := n * 2
    if m > 9 then m / 10 + m % 10 else m
  else n

/-- `IMEIValidator._luhn_check` (`app/services/imei_validator.py`). -/
def _luhn_check (imei : String) : Bool :=
  let reverse_digits := imei.toList.reverse
  let total :=
    (reverse_digits.enum.map (fun p => luhnStep p.1 (pyDigit p.2))).sum
  total % 10 == 0

/-- `IMEIValidator.validate_imei` with the checksum left as a parameter;
`validate_imei` instantiates it with `_luhn_check`.  Returns
`(is_valid, message-or-cleaned-imei)` exactly as the Python
`Tuple[bool, str]`. -/
def validate_imei_with (luhn : String → Bool) (imei : String) : Bool × String :=
  if imei.toList.isEmpty then (false, "IMEI no puede estar vacío")
  else if pyIsdigit (cleanIMEI imei) = false then
    (false, "IMEI debe contener solo números")
  else if (cleanIMEI imei).length < 8 ∨ (cleanIMEI imei).length > 17 then
    (false, "IMEI debe tener entre 8 y 17 dígitos")
  else if (cleanIMEI imei).length = 15 ∧ luhn (cleanIMEI imei) = false then
    (false, "IMEI no válido según algoritmo de verificación")
  else (true, cleanIMEI imei)

/-- `IMEIValidator.validate_imei` (`app/services/imei_validator.py`). -/
def validate_imei : String → Bool × String := validate_imei_with _luhn_check

/-- The JSON fields of the provider response consumed by the Response
Formatter (`response_json.get(...)` in `app/services/response_formatter.py`);
`none` models an absent key. -/
structure ProviderPayload where
  service_name : Option String := none
  imei : Option String := none
  status : Option String := none
  credit : Option String := none
  balance_left : Option String := none
  result : Option String := none
deriving DecidableEq, Repr

/-- The fields `app/config.py`'s pydantic `Settings` actually defines
(restricted to those the embedded components consume; defaults as in the
source).  The API-key field is named `imei_checker_api_key` — the source
line carries the comment "Nombre corregido" — and **no** `imei_api_key`
field exists. -/
structure Settings where
  imei_checker_api_key : String := ""
  imei_api_url : String := "https://alpha.imeicheck.com/api/php-api/create"
  owner_id : Int := 7655366089
  request_timeout : Nat := 15
  max_retries : Nat := 3
deriving DecidableEq, Repr

/-- A value stored in a `Settings` attribute. -/
inductive ConfigValue where
  | str (s : String)
  | int (i : Int)
  | nat (n : Nat)
deriving DecidableEq, Repr

/-- Python attribute lookup on the `Settings` object (pydantic v2 with
`extra = "ignore"`): the names defined in `app/config.py` resolve to their
values, and any other name raises `AttributeError` (modelled as `none`).
In particular `imei_api_key`, the name `imei_checker.py` reads, is **not**
defined. -/
def Settings.getattr (cfg : Settings) : String → Option ConfigValue
  | "imei_checker_api_key" => some (.str cfg.imei_checker_api_key)
  | "imei_api_url" => some (.str cfg.imei_api_url)
  | "owner_id" => some (.int cfg.owner_id)
  | "request_timeout" => some (.nat cfg.request_timeout)
  | "max_retries" => some (.nat cfg.max_retries)
  | _ => none

/-- What one HTTP attempt of `IMEIChecker.check_imei` can observe: a response
with a status code (200 carries a parsed JSON body), an `httpx.TimeoutException`
or an `httpx.RequestError`. -/
inductive ProviderResponse where
  | http (status_code : Nat) (body : ProviderPayload)
  | timeout
  | connError (msg : String)
deriving DecidableEq, Repr

/-- How `IMEIChecker.check_imei` ends: a 200 body returned; an uncaught
`response.raise_for_status()` exception for a non-2xx, non-429 status; the
final `raise APIError(...)` after exhausting `max_retries` attempts; or an
uncaught `AttributeError` from reading an attribute `Settings` does not
define while building `params`, before the first attempt. -/
inductive CheckOutcome where
  | ok (body : ProviderPayload)
  | httpStatusError (status_code : Nat)
  | apiError (max_retries : Nat) (last_error : Option String)
  | attributeError (attr : String)
deriving DecidableEq, Repr

/-- Observable behaviour of one `check_imei` invocation: how many attempts
were issued, the `asyncio.sleep` durations in order, and the outcome. -/
structure CheckResult where
  attempts : Nat
  sleeps : List Nat
  outcome : CheckOutcome
deriving DecidableEq, Repr

/-- Python string interpolation of an `Optional[str]`: `None` prints as
`"None"`. -/
def pyOptStr : Option String → String
  | none => "None"
  | some s => s

/-- The message of the final `APIError` raised by `check_imei`:
`f"Error después de {max_retries} intentos. {last_error}"`. -/
def apiErrorMsg (max_retries : Nat) (last_error : Option String) : String :=
  "Error después de " ++ toString max_retries ++ " intentos. " ++
    pyOptStr last_error

/-- The `for attempt in range(max_retries)` loop of `check_imei`
(`app/services/imei_checker.py`), with `fuel` counting the remaining loop
iterations (`fuel = max_retries - attempt` at every call).  httpx's
`raise_for_status` is a no-op on 2xx statuses, so a non-200 2xx makes the
loop fall through to the next attempt without sleeping. -/
def checkLoop (resp : Nat → ProviderResponse) (max_retries : Nat) :
    Nat → Nat → Option String → List Nat → CheckResult
  | 0, attempt, last_error, sleeps =>
      { attempts := attempt, sleeps := sleeps,
        outcome := .apiError max_retries last_error }
  | fuel + 1, attempt, last_error, sleeps =>
      match resp attempt with
      | .http code body =>
          if code = 200 then
            { attempts := attempt + 1, sleeps := sleeps, outcome := .ok body }
          else if code = 429 then
            checkLoop resp max_retries fuel (attempt + 1) last_error
              (sleeps ++ [2 ^ attempt])
          else if 200 ≤ code ∧ code ≤ 299 then
            checkLoop resp max_retries fuel (attempt + 1) last_error sleeps
          else
            { attempts := attempt + 1, sleeps := sleeps,
              outcome := .httpStatusError code }
      | .timeout =>
          let le := some ("Timeout en intento " ++ toString (attempt + 1))
          if attempt + 1 < max_retries then
            checkLoop resp max_retries fuel (attempt + 1) le
              (sleeps ++ [2 ^ attempt])
          else
            checkLoop resp max_retries fuel (attempt + 1) le sleeps
      | .connError msg =>
          let le := some ("Error de conexión: " ++ msg)
          if attempt + 1 < max_retries then
            checkLoop resp max_retries fuel (attempt + 1) le
              (sleeps ++ [2 ^ attempt])
          else
            checkLoop resp max_retries fuel (attempt + 1) le sleeps

/-- `IMEIChecker.check_imei` (`app/services/imei_checker.py`), as a function
of the configuration and the provider's per-attempt behaviour `resp`.
Before the retry loop, the `params` dict reads `self.config.imei_api_key`
(line 35) — an attribute `app/config.py`'s `Settings` does not define (the
config field was renamed `imei_checker_api_key`), so the lookup raises
`AttributeError` and the loop is never entered. -/
def check_imei (cfg : Settings) (resp : Nat → ProviderResponse) :
    CheckResult :=
  match cfg.getattr "imei_api_key" with
  | none =>
      { attempts := 0, sleeps := [],
        outcome := .attributeError "imei_api_key" }
  | some _ => checkLoop resp cfg.max_retries cfg.max_retries 0 none []

/-- `re.sub(r'<[^>]*>', '', s)` on the character list: each `<` that has a
later `>` is removed together with everything up to and including the first
such `>`; a `<` with no later `>` matches nothing and the remainder is kept
verbatim.  `fuel` only forces structural termination; every call keeps
`fuel ≥ length` so the `fuel = 0` fallback is never taken. -/
def removeTagsAux : Nat → List Char → List Char
  | _, [] => []
  | 0, l => l
  | fuel + 1, c :: cs =>
      if c = '<' then
        match cs.dropWhile (fun d => d != '>') with
        | [] => c :: cs
        | _ :: rest => removeTagsAux fuel rest
      else c :: removeTagsAux fuel cs

def removeTags (l : List Char) : List Char := removeTagsAux l.length l

/-- Python `s.replace(pat, rep)` on character lists: non-overlapping
occurrences replaced left to right.  `fuel` only forces structural
termination (each step consumes at least one character when `pat` is
nonempty). -/
def replaceAux (pat rep : List Char) : Nat → List Char → List Char
  | _, [] => []
  | 0, l => l
  | fuel + 1, c :: cs =>
      if pat.isPrefixOf (c :: cs) then
        rep ++ replaceAux pat rep fuel ((c :: cs).drop pat.length)
      else c :: replaceAux pat rep fuel cs

/-- Python `s.replace(pat, rep)` for nonempty `pat` (all patterns in
`_clean_html_content` are nonempty literals). -/
def pyReplace (s pat rep : String) : String :=
  if pat.isEmpty then s
  else String.mk (replaceAux pat.toList rep.toList s.toList.length s.toList)

/-- Python `s.split('\n')`. -/
def splitOnNewline : List Char → List (List Char)
  | [] => [[]]
  | c :: cs =>
      match splitOnNewline cs with
      | [] => [[c]]
      | h :: t => if c = '\n' then [] :: h :: t else (c :: h) :: t

/-- Python `line.strip()`: drop whitespace from both ends. -/
def pyStrip (l : List Char) : List Char :=
  ((l.dropWhile Char.isWhitespace).reverse.dropWhile Char.isWhitespace).reverse

/-- Python `'\n'.join(lines)`. -/
def joinLines : List (List Char) → List Char
  | [] => []
  | [l] => l
  | l :: ls => l ++ '\n' :: joinLines ls

/-- The literal `str.replace` chain of `_clean_html_content`
(`app/services/response_formatter.py`, the `replacements` list). -/
def applyReplacements (s : String) : String :=
  let s := pyReplace s "\\u003Cbr\\u003E" "\n"
  let s := pyReplace s "<br>" "\n"
  let s := pyReplace s "<br/>" "\n"
  let s := pyReplace s "&nbsp;" " "
  let s := pyReplace s "&amp;" "&"
  let s := pyReplace s "&lt;" "<"
  let s := pyReplace s "&gt;" ">"
  s

/-- `ResponseFormatter._clean_html_content`, parameterized by the stdlib
`html.unescape` entity decoder (an arbitrary string transformer here). -/
def _clean_html_content (unescape : String → String) (html_content : String) :
    String :=
  if html_content.isEmpty then "No hay información disponible"
  else
    let decoded := unescape html_content
    let decoded := applyReplacements decoded
    let clean_text := removeTags decoded.toList
    let lines :=
      ((splitOnNewline clean_text).map pyStrip).filter (fun l => !l.isEmpty)
    String.mk (joinLines lines)

/-- The `message` value built by `format_imei_response` before the
`if clean_result:` block (the fixed header lines). -/
def formatHeader (rj : ProviderPayload) : String :=
  let service_name := rj.service_name.getD "No disponible"
  let imei := rj.imei.getD "No disponible"
  let status := rj.status.getD "No disponible"
  let credit := rj.credit.getD "0.00"
  let balance := rj.balance_left.getD "0.00"
  "📱 <b>Consulta IMEI</b>\n" ++
  "━━━━━━━━━━━━━━━━━━━━\n" ++
  "🔍 <b>Servicio:</b> " ++ service_name ++ "\n" ++
  "📟 <b>IMEI:</b> <code>" ++ imei ++ "</code>\n" ++
  "⚡ <b>Estado:</b> " ++ status ++ "\n" ++
  "💰 <b>Crédito usado:</b> $" ++ credit ++ "\n" ++
  "💳 <b>Saldo restante:</b> $" ++ balance ++ "\n"

/-- `ResponseFormatter.format_imei_response`
(`app/services/response_formatter.py`): header, then — when the cleaned
result body is nonempty — the body truncated to its first 1500 characters,
with the truncation marker appended when the body is longer than 1500. -/
def format_imei_response (unescape : String → String) (rj : ProviderPayload) :
    String :=
  let result_raw := rj.result.getD ""
  let clean_result := _clean_html_content unescape result_raw
  let message := formatHeader rj
  if !clean_result.isEmpty then
    let message := message ++ "\n📋 <b>Detalles:</b>\n<pre>" ++
      pyTake clean_result 1500 ++ "</pre>"
    if clean_result.length > 1500 then
      message ++ "\n<i>... (resultado truncado)</i>"
    else message
  else message

/-- `IMEIBot._is_owner` (`app/bot/bot_manager.py`). -/
def _is_owner (cfg : Settings) (user_id : Int) : Bool :=
  user_id == cfg.owner_id

/-- The `message.from_user` fields read by `handle_imei_input`. -/
structure TgUser where
  id : Int
  username : Option String := none
  first_name : Option String := none
  last_name : Option String := none
deriving DecidableEq, Repr

/-- The fields of a service entry (`data["selected_service"]`) read by
`handle_imei_input`: `price`, `id`, `title`. -/
structure Service where
  id : Int
  title : String
  price : ℚ
  category : String := ""
deriving DecidableEq, Repr

/-- The exceptions that can escape the `try` block of `handle_imei_input`.
`bot_manager.py` defines its own `class APIError(Exception)` (line 38) and
does not import the `APIError` class of `app/services/imei_checker.py`;
the two are distinct exception classes, so they are distinct constructors
here.  `check_imei` raises the checker's class. -/
inductive PyExc where
  | botAPIError (msg : String)
  | checkerAPIError (msg : String)
  | httpStatusError (status_code : Nat)
  | otherError (msg : String)
deriving DecidableEq, Repr

/-- Python `isinstance(e, APIError)` where `APIError` resolves to the class
defined locally in `bot_manager.py`: only instances of that class match. -/
def PyExc.isBotAPIError : PyExc → Bool
  | .botAPIError _ => true
  | _ => false

/-- Python `str(e)`. -/
def PyExc.toMsg : PyExc → String
  | .botAPIError m => m
  | .checkerAPIError m => m
  | .httpStatusError c => "HTTP status error " ++ toString c
  | .otherError m => m

/-- The user-visible replies `handle_imei_input` can send, tagged by which
`message.answer` call produced them. -/
inductive BotMsg where
  | invalidIMEI (detail : String)
  | noServiceSelected
  | insufficientBalance (balance price : ℚ)
  | processing (last4 : String) (price : ℚ)
  | formattedResult (text : String)
  | queryError (detail : String)
  | unexpectedError
  | mainMenuPrompt
  | anotherQueryPrompt
deriving DecidableEq, Repr

/-- One `self.db.update_user_query(...)` invocation:
`(user_id, service_title, price, imei, success)`. -/
abbrev LedgerCall : Type := Int × String × ℚ × String × Bool

/-- Observable effect of one `handle_imei_input` run: final user store,
replies in order, whether control reached the Verification Client call
site inside the `try` block (`provider_called`; with the config bug no
HTTP attempt is issued there), whether `state.clear()` ran, and the
`update_user_query` invocations in order. -/
structure HandleResult where
  db : Store
  messages : List BotMsg
  provider_called : Bool
  state_cleared : Bool
  ledger_calls : List LedgerCall

/-- The `except` chain at the end of the `try` block of
`handle_imei_input`: `except APIError as e` (the class local to
`bot_manager.py`) records a failed zero-price query and reports `str(e)`;
every other exception falls to `except Exception` which reports a generic
message and does not touch the database. -/
def handleExc (db1 : Store) (now : String) (uid : Int) (service : Service)
    (clean_imei : String) (e : PyExc) : Store × List BotMsg × List LedgerCall :=
  if e.isBotAPIError then
    (update_user_query db1 now uid service.title 0 clean_imei false,
     [BotMsg.queryError e.toMsg],
     [(uid, service.title, (0 : ℚ), clean_imei, false)])
  else
    (db1, [BotMsg.unexpectedError], [])

/-- `IMEIBot.handle_imei_input` (`app/bot/bot_manager.py`): validate, check
the selected service, get-or-create the user, apply the balance gate (owner
bypasses), call the provider, and reconcile.  `resp` is the provider's
per-attempt behaviour, `now` the current timestamp, `unescape` the stdlib
HTML entity decoder. -/
def handle_imei_input (cfg : Settings) (db : Store) (now : String)
    (from_user : TgUser) (text : String) (selected_service : Option Service)
    (resp : Nat → ProviderResponse) (unescape : String → String) :
    HandleResult :=
  let imei_input := String.mk (pyStrip text.toList)
  let v := validate_imei imei_input
  if v.1 = false then
    { db := db, messages := [.invalidIMEI v.2], provider_called := false,
      state_cleared := false, ledger_calls := [] }
  else
    let clean_imei := v.2
    match selected_service with
    | none =>
        { db := db, messages := [.noServiceSelected], provider_called := false,
          state_cleared := true, ledger_calls := [] }
    | some service =>
        let gc := get_or_create_user db now from_user.id from_user.username
          from_user.first_name from_user.last_name
        let db1 := gc.1
        let user := gc.2
        let service_price := service.price
        if user.balance < service_price ∧ _is_owner cfg from_user.id = false then
          { db := db1,
            messages := [.insufficientBalance user.balance service_price,
              .mainMenuPrompt],
            provider_called := false, state_cleared := true, ledger_calls := [] }
        else
          let procMsg := BotMsg.processing (pyTakeRight clean_imei 4) service_price
          let check := check_imei cfg resp
          match check.outcome with
          | .ok payload =>
              let formatted := format_imei_response unescape payload
              let db2 := update_user_query db1 now from_user.id service.title
                service_price clean_imei true
              { db := db2,
                messages := [procMsg, .formattedResult formatted,
                  .anotherQueryPrompt],
                provider_called := true, state_cleared := true,
                ledger_calls :=
                  [(from_user.id, service.title, service_price, clean_imei, true)] }
          | .apiError mr le =>
              let h := handleExc db1 now from_user.id service clean_imei
                (.checkerAPIError (apiErrorMsg mr le))
              { db := h.1, messages := procMsg :: h.2.1 ++ [.anotherQueryPrompt],
                provider_called := true, state_cleared := true,
                ledger_calls := h.2.2 }
          | .httpStatusError code =>
              let h := handleExc db1 now from_user.id service clean_imei
                (.httpStatusError code)
              { db := h.1, messages := procMsg :: h.2.1 ++ [.anotherQueryPrompt],
                provider_called := true, state_cleared := true,
                ledger_calls := h.2.2 }
          | .attributeError attr =>
              let h := handleExc db1 now from_user.id service clean_imei
                (.otherError ("AttributeError: " ++ attr))
              { db := h.1, messages := procMsg :: h.2.1 ++ [.anotherQueryPrompt],
                provider_called := true, state_cleared := true,
                ledger_calls := h.2.2 }

/-- The last `n` elements of a list (`xs[-n:]` for `n ≤ len(xs)`). -/
def lastN (n : Nat) (xs : List α) : List α := xs.drop (xs.length - n)

/-- The arguments of one sequential `update_user_query` insertion. -/
structure RecInput where
  date : String
  service : String
  price : ℚ
  imei : String
  success : Bool
deriving DecidableEq, Repr

/-- The query record that `update_user_query` appends for these arguments. -/
def toQueryRecord (r : RecInput) : QueryRecord :=
  { date := r.date, service := r.service, price := r.price,
    imei := pyTakeRight r.imei 4, success := r.success }

/-- A sequence of `update_user_query` calls for one user. -/
def insertAll (uid : Int) (recs : List RecInput) (db : Store) : Store :=
  recs.foldl
    (fun d r => update_user_query d r.date uid r.service r.price r.imei r.success)
    db

/-! Concrete fixtures used by the witness and counterexample
theorems below. -/

def w1User : UserData :=
  { user_id := 11, username := none, first_name := none, last_name := none,
    join_date := "2024-01-01 00:00:00", last_activity := "2024-01-01 00:00:00",
    total_queries := 3, balance := 5, query_history := [] }

def w1Db : Store := Store.set (fun _ => none) 11 w1User

def w4User : UserData :=
  { user_id := 22, username := none, first_name := none, last_name := none,
    join_date := "2024-01-01 00:00:00", last_activity := "2024-01-01 00:00:00",
    total_queries := 0, balance := 100, query_history := [] }

def w4Db : Store := Store.set (fun _ => none) 22 w4User

def w4recs : List RecInput :=
  (List.range 60).map fun i =>
    { date := "d", service := "s", price := mkRat i 1,
      imei := "355088471234" ++ toString i, success := true }

def w5raw1 : String := "abc-12"

def w5raw2 : String := "12 34-5678"

def w3User : UserData :=
  { user_id := 1, username := none, first_name := none, last_name := none,
    join_date := "2024-01-01 00:00:00", last_activity := "2024-01-01 00:00:00",
    total_queries := 4, balance := mkRat 2 5, query_history := [] }

def w3Db : Store := Store.set (fun _ => none) 1 w3User

def w3Cfg : Settings := { owner_id := 7655366089, max_retries := 3 }

def w3Svc : Service :=
  { id := 4, title := "FMI Simple", price := mkRat 1 2, category := "apple" }

def w8User : UserData :=
  { user_id := 7655366089, username := some "owner", first_name := none,
    last_name := none, join_date := "2024-01-01 00:00:00",
    last_activity := "2024-01-01 00:00:00", total_queries := 9, balance := 0,
    query_history := [] }

def w8Db : Store := Store.set (fun _ => none) 7655366089 w8User

def w8Svc : Service :=
  { id := 9, title := "Full GSX", price := mkRat 7 2, category := "apple" }

def c2User : UserData :=
  { user_id := 1, username := none, first_name := none, last_name := none,
    join_date := "2024-01-01 00:00:00", last_activity := "2024-01-01 00:00:00",
    total_queries := 2, balance := 5, query_history := [] }

def c2Db : Store := Store.set (fun _ => none) 1 c2User

def c2Svc : Service :=
  { id := 4, title := "FMI Simple", price := mkRat 1 2, category := "apple" }

/-! ### Auxiliary lemmas -/

example : validate_imei "490154203237518" = (true, "490154203237518") := by decide

example : validate_imei "123456789012345" =
    (false, "IMEI no válido según algoritmo de verificación") := by decide

example : validate_imei "12 34-5678" = (true, "12345678") := by decide

example : validate_imei "" = (false, "IMEI no puede estar vacío") := by decide

example : validate_imei "abc" = (false, "IMEI debe contener solo números") := by decide

example : validate_imei "1234567" =
    (false, "IMEI debe tener entre 8 y 17 dígitos") := by decide

example :
    check_imei {} (fun _ => .http 200 {}) =
      { attempts := 0, sleeps := [],
        outcome := .attributeError "imei_api_key" } := by
  decide

example :
    checkLoop (fun _ => .http 429 {}) 3 3 0 none [] =
      { attempts := 3, sleeps := [1, 2, 4], outcome := .apiError 3 none } := by
  decide

example :
    checkLoop (fun _ => .http 200 {}) 3 3 0 none [] =
      { attempts := 1, sleeps := [], outcome := .ok {} } := by
  decide

example :
    checkLoop (fun _ => .timeout) 2 2 0 none [] =
      { attempts := 2, sleeps := [1],
        outcome := .apiError 2 (some "Timeout en intento 2") } := by
  decide

example :
    checkLoop (fun _ => .http 204 {}) 2 2 0 none [] =
      { attempts := 2, sleeps := [], outcome := .apiError 2 none } := by
  decide

example :
    checkLoop (fun _ => .http 404 {}) 3 3 0 none [] =
      { attempts := 1, sleeps := [], outcome := .httpStatusError 404 } := by
  decide

example :
    _clean_html_content id "" = "No hay información disponible" := by decide

example :
    _clean_html_content id "<b>Model:</b> iPhone<br>OK" = "Model: iPhone\nOK" := by
  decide

example : _clean_html_content id "<br>" = "" := by decide


theorem Store.get_set_same (db : Store) (uid : Int) (u : UserData) :
    Store.set db uid u uid = some u := by
  simp [Store.set]

theorem Store.get_set_other (db : Store) (uid : Int) (u : UserData)
    (k : Int) (h : k ≠ uid) : Store.set db uid u k = db k := by
  simp [Store.set, h]

theorem trim_eq_lastN (l : List QueryRecord) :
    (if l.length > 50 then l.drop (l.length - 50) else l) = lastN 50 l := by
  unfold lastN
  split
  · rfl
  · have h : l.length - 50 = 0 := by omega
    rw [h, List.drop_zero]

theorem lastN_length_le (n : Nat) (xs : List α) : (lastN n xs).length ≤ n := by
  simp only [lastN, List.length_drop]
  omega

theorem lastN_append_lastN (n : Nat) (xs ys : List α) :
    lastN n (lastN n xs ++ ys) = lastN n (xs ++ ys) := by
  unfold lastN
  have h1 : xs.drop (xs.length - n) ++ ys =
      (xs ++ ys).drop (xs.length - n) :=
    (List.drop_append_of_le_length (Nat.sub_le _ _)).symm
  rw [h1, List.drop_drop]
  congr 1
  simp only [List.length_drop, List.length_append]
  omega

theorem getLast?_lastN_concat (n : Nat) (hn : 1 ≤ n) (xs : List α) (a : α) :
    (lastN n (xs ++ [a])).getLast? = some a := by
  unfold lastN
  have hle : (xs ++ [a]).length - n ≤ xs.length := by
    simp only [List.length_append, List.length_singleton]
    omega
  rw [List.drop_append_of_le_length hle, List.getLast?_concat]

/-- `get_or_create_user` on an existing user: the profile fields and
`last_activity` are refreshed; balance, counters and history are kept. -/
theorem get_or_create_user_some (db : Store) (now : String) (uid : Int)
    (un fn ln : Option String) (u : UserData) (h : db uid = some u) :
    get_or_create_user db now uid un fn ln =
      (Store.set db uid
        { u with
          username := un, first_name := fn, last_name := ln,
          last_activity := now },
       { u with
         username := un, first_name := fn, last_name := ln,
         last_activity := now }) := by
  unfold get_or_create_user
  rw [h]

/-- `update_user_query` on an existing user, in solved form. -/
theorem update_user_query_some (db : Store) (now : String) (uid : Int)
    (title : String) (price : ℚ) (imei : String) (success : Bool)
    (u : UserData) (h : db uid = some u) :
    update_user_query db now uid title price imei success =
      Store.set db uid
        { u with
          total_queries := u.total_queries + 1,
          balance := if success then u.balance - price else u.balance,
          query_history :=
            lastN 50 (u.query_history ++
              [{ date := now, service := title, price := price,
                 imei := pyTakeRight imei 4, success := success }]) } := by
  unfold update_user_query
  rw [h]
  cases success <;>
    simp only [Bool.false_eq_true, if_false, if_true, trim_eq_lastN]

theorem insertAll_history (uid : Int) (recs : List RecInput) :
    ∀ (db : Store) (u : UserData), db uid = some u →
      u.query_history.length ≤ 50 →
      ∃ u', insertAll uid recs db uid = some u' ∧
        u'.query_history =
          lastN 50 (u.query_history ++ recs.map toQueryRecord) ∧
        u'.total_queries = u.total_queries + recs.length := by
  induction recs with
  | nil =>
      intro db u h hle
      refine ⟨u, h, ?_, by simp⟩
      simp only [List.map_nil, List.append_nil, lastN]
      have : u.query_history.length - 50 = 0 := by omega
      rw [this, List.drop_zero]
  | cons r rs ih =>
      intro db u h hle
      have hstep := update_user_query_some db r.date uid r.service r.price
        r.imei r.success u h
      set u1 : UserData :=
        { u with
          total_queries := u.total_queries + 1,
          balance := if r.success then u.balance - r.price else u.balance,
          query_history :=
            lastN 50 (u.query_history ++ [toQueryRecord r]) } with hu1
      have h1 : update_user_query db r.date uid r.service r.price r.imei
          r.success uid = some u1 := by
        rw [hstep]; exact Store.get_set_same ..
      obtain ⟨u', hfind, hhist, htot⟩ :=
        ih (update_user_query db r.date uid r.service r.price r.imei r.success)
          u1 h1 (by simpa [hu1] using lastN_length_le 50 (u.query_history ++ [toQueryRecord r]))
      refine ⟨u', ?_, ?_, ?_⟩
      · simpa [insertAll] using hfind
      · rw [hhist]
        show lastN 50 (lastN 50 (u.query_history ++ [toQueryRecord r]) ++
          rs.map toQueryRecord) = _
        rw [lastN_append_lastN, List.append_assoc]
        simp
      · simp only [htot, hu1, List.length_cons]
        omega

/-! ### The claims -/

/-- C1: on an existing account, `update_user_query` ends with
`balance = balance_before - price` when `success = true` and with the
balance untouched when `success = false`; no other key of the store is
changed. -/
theorem recordQuery_debits_iff_success (db : Store) (now : String) (uid : Int)
    (title : String) (price : ℚ) (imei : String) (success : Bool)
    (u : UserData) (h : db uid = some u) :
    (∃ u', update_user_query db now uid title price imei success uid = some u' ∧
       u'.balance = (if success then u.balance - price else u.balance)) ∧
    (∀ k, k ≠ uid →
      update_user_query db now uid title price imei success k = db k) := by
  rw [update_user_query_some db now uid title price imei success u h]
  exact ⟨⟨_, Store.get_set_same .., rfl⟩,
    fun k hk => Store.get_set_other db uid _ k hk⟩

theorem recordQuery_debits_iff_success_witness :
    (∃ u', update_user_query w1Db "t" 11 "FMI" (mkRat 1 2) "355088471234567"
        true 11 = some u' ∧
       u'.balance = (if true then w1User.balance - mkRat 1 2 else w1User.balance)) ∧
    (∀ k, k ≠ (11 : Int) →
      update_user_query w1Db "t" 11 "FMI" (mkRat 1 2) "355088471234567" true k =
        w1Db k) :=
  recordQuery_debits_iff_success w1Db "t" 11 "FMI" (mkRat 1 2)
    "355088471234567" true w1User rfl

/-- C10: `update_user_query` on a user id with no account is a silent no-op:
the whole store is returned unchanged. -/
theorem recordQuery_unknown_user_noop (db : Store) (now : String) (uid : Int)
    (title : String) (price : ℚ) (imei : String) (success : Bool)
    (h : db uid = none) :
    update_user_query db now uid title price imei success = db := by
  unfold update_user_query
  rw [h]

theorem recordQuery_unknown_user_noop_witness :
    update_user_query (fun _ => none) "t" 7 "FMI" (mkRat 1 2) "35508847" false =
      (fun _ => none) :=
  recordQuery_unknown_user_noop (fun _ => none) "t" 7 "FMI" (mkRat 1 2)
    "35508847" false rfl

/-- C4: after any `update_user_query` on an existing account the history
has at most 50 records and ends with a record storing only the last 4
characters of the identifier; 60 sequential insertions starting from an
empty history leave exactly the records of the 50 most recent insertions,
in insertion order. -/
theorem recordQuery_history_invariants (uid : Int) :
    (∀ (db : Store) (now title : String) (price : ℚ) (imei : String)
        (success : Bool) (u : UserData), db uid = some u →
      ∃ u', update_user_query db now uid title price imei success uid = some u' ∧
        u'.query_history.length ≤ 50 ∧
        u'.query_history.getLast? =
          some { date := now, service := title, price := price,
                 imei := pyTakeRight imei 4, success := success }) ∧
    (∀ (db : Store) (recs : List RecInput) (u : UserData),
        db uid = some u → u.query_history = [] → recs.length = 60 →
      ∃ u', insertAll uid recs db uid = some u' ∧
        u'.query_history = (recs.map toQueryRecord).drop 10 ∧
        u'.query_history.length = 50) := by
  constructor
  · intro db now title price imei success u h
    have hstep := update_user_query_some db now uid title price imei success u h
    refine ⟨{ u with
        total_queries := u.total_queries + 1,
        balance := if success then u.balance - price else u.balance,
        query_history := lastN 50 (u.query_history ++
          [{ date := now, service := title, price := price,
             imei := pyTakeRight imei 4, success := success }]) }, ?_, ?_, ?_⟩
    · rw [hstep]
      exact Store.get_set_same ..
    · exact lastN_length_le 50 _
    · exact getLast?_lastN_concat 50 (by omega) _ _
  · intro db recs u h h0 hlen
    obtain ⟨u', hfind, hhist, _⟩ :=
      insertAll_history uid recs db u h (by simp [h0])
    refine ⟨u', hfind, ?_, ?_⟩
    · rw [hhist, h0]
      simp [lastN, hlen]
    · rw [hhist, h0]
      simp [lastN, hlen]

theorem recordQuery_history_invariants_witness :
    (∃ u', update_user_query w4Db "t" 22 "FMI" (mkRat 7 2) "355088471234567"
        false 22 = some u' ∧
      u'.query_history.length ≤ 50 ∧
      u'.query_history.getLast? =
        some { date := "t", service := "FMI", price := mkRat 7 2,
               imei := pyTakeRight "355088471234567" 4, success := false }) ∧
    (∃ u', insertAll 22 w4recs w4Db 22 = some u' ∧
      u'.query_history = (w4recs.map toQueryRecord).drop 10 ∧
      u'.query_history.length = 50) :=
  ⟨(recordQuery_history_invariants 22).1 w4Db "t" "FMI" (mkRat 7 2)
      "355088471234567" false w4User rfl,
   (recordQuery_history_invariants 22).2 w4Db w4recs w4User rfl rfl (by decide)⟩

theorem cleanIMEI_toList (raw : String) :
    (cleanIMEI raw).toList = raw.toList.filter Char.isDigit := rfl

theorem cleanIMEI_all_digits (raw : String) :
    (cleanIMEI raw).toList.all Char.isDigit = true := by
  rw [cleanIMEI_toList]
  simp only [List.all_eq_true]
  intro c hc
  exact (List.mem_filter.mp hc).2

theorem cleanIMEI_ne_empty (raw : String) (h : 1 ≤ (cleanIMEI raw).length) :
    (cleanIMEI raw).toList.isEmpty = false := by
  cases he : (cleanIMEI raw).toList.isEmpty
  · rfl
  · exfalso
    have : (cleanIMEI raw).toList = [] := by
      cases hl : (cleanIMEI raw).toList
      · rfl
      · rw [hl] at he
        simp [List.isEmpty] at he
    have hlen : (cleanIMEI raw).length = 0 := by
      show (cleanIMEI raw).data.length = 0
      rw [show (cleanIMEI raw).data = (cleanIMEI raw).toList from rfl, this]
      rfl
    omega

theorem raw_ne_empty_of_clean (raw : String) (h : 1 ≤ (cleanIMEI raw).length) :
    raw.toList.isEmpty = false := by
  cases he : raw.toList.isEmpty
  · rfl
  · exfalso
    have hnil : raw.toList = [] := by
      cases hl : raw.toList
      · rfl
      · rw [hl] at he
        simp [List.isEmpty] at he
    have : (cleanIMEI raw).length = 0 := by
      show (raw.toList.filter Char.isDigit).length = 0
      rw [hnil]
      rfl
    omega

/-- C5: the validator strips non-digits; when the cleaned string has fewer
than 8 or more than 17 digits (in particular when it is empty) it fails
with one of the three format-error messages; when the cleaned length is
in `[8,17]` but not 15 it succeeds with the cleaned digit string, for any
checksum function whatsoever (the checksum is never consulted). -/
theorem validator_format_contract (raw : String) :
    ((cleanIMEI raw).length < 8 ∨ (cleanIMEI raw).length > 17 →
      (validate_imei raw).1 = false ∧
      ((validate_imei raw).2 = "IMEI no puede estar vacío" ∨
       (validate_imei raw).2 = "IMEI debe contener solo números" ∨
       (validate_imei raw).2 = "IMEI debe tener entre 8 y 17 dígitos")) ∧
    (8 ≤ (cleanIMEI raw).length → (cleanIMEI raw).length ≤ 17 →
      (cleanIMEI raw).length ≠ 15 →
      ∀ luhn : String → Bool,
        validate_imei_with luhn raw = (true, cleanIMEI raw)) := by
  constructor
  · intro hlen
    unfold validate_imei validate_imei_with
    by_cases h0 : raw.toList.isEmpty = true
    · rw [if_pos h0]
      exact ⟨rfl, Or.inl rfl⟩
    · rw [if_neg h0]
      by_cases h1 : pyIsdigit (cleanIMEI raw) = false
      · rw [if_pos h1]
        exact ⟨rfl, Or.inr (Or.inl rfl)⟩
      · rw [if_neg h1, if_pos hlen]
        exact ⟨rfl, Or.inr (Or.inr rfl)⟩
  · intro h8 h17 h15 luhn
    unfold validate_imei_with
    rw [if_neg (by rw [raw_ne_empty_of_clean raw (by omega)]; simp)]
    rw [if_neg ?hdigit]
    case hdigit =>
      have hd : pyIsdigit (cleanIMEI raw) = true := by
        unfold pyIsdigit
        rw [cleanIMEI_ne_empty raw (by omega), cleanIMEI_all_digits]
        rfl
      simp [hd]
    rw [if_neg (by omega)]
    rw [if_neg (fun hc => h15 hc.1)]

theorem validator_format_contract_witness :
    ((validate_imei w5raw1).1 = false ∧
      ((validate_imei w5raw1).2 = "IMEI no puede estar vacío" ∨
       (validate_imei w5raw1).2 = "IMEI debe contener solo números" ∨
       (validate_imei w5raw1).2 = "IMEI debe tener entre 8 y 17 dígitos")) ∧
    validate_imei_with _luhn_check w5raw2 = (true, cleanIMEI w5raw2) :=
  ⟨(validator_format_contract w5raw1).1 (Or.inl (by decide)),
   (validator_format_contract w5raw2).2 (by decide) (by decide) (by decide)
     _luhn_check⟩

/-- C6: on a cleaned input of exactly 15 digits the validator accepts iff
`_luhn_check` (double every second digit from the right, fold doubles above
9 by digit sum, total mod 10 = 0) accepts, and otherwise fails with the
checksum-error message; `490154203237518` passes and `123456789012345`
fails. -/
theorem validator_luhn_gate (raw : String)
    (h : (cleanIMEI raw).length = 15) :
    (validate_imei raw =
      if _luhn_check (cleanIMEI raw) = true then (true, cleanIMEI raw)
      else (false, "IMEI no válido según algoritmo de verificación")) ∧
    _luhn_check "490154203237518" = true ∧
    _luhn_check "123456789012345" = false := by
  refine ⟨?_, by decide, by decide⟩
  unfold validate_imei validate_imei_with
  rw [if_neg (by rw [raw_ne_empty_of_clean raw (by omega)]; simp)]
  rw [if_neg ?hdigit]
  case hdigit =>
    have hd : pyIsdigit (cleanIMEI raw) = true := by
      unfold pyIsdigit
      rw [cleanIMEI_ne_empty raw (by omega), cleanIMEI_all_digits]
      rfl
    simp [hd]
  rw [if_neg (by omega)]
  cases hl : _luhn_check (cleanIMEI raw)
  · rw [if_pos ⟨h, rfl⟩]
    simp [hl]
  · rw [if_neg (by simp [hl])]
    simp [hl]

theorem validator_luhn_gate_witness :
    (validate_imei "490154203237518" =
      if _luhn_check (cleanIMEI "490154203237518") = true then
        (true, cleanIMEI "490154203237518")
      else (false, "IMEI no válido según algoritmo de verificación")) ∧
    _luhn_check "490154203237518" = true ∧
    _luhn_check "123456789012345" = false :=
  validator_luhn_gate "490154203237518" (by decide)

theorem checkLoop_always_429 (resp : Nat → ProviderResponse) (mr : Nat) :
    ∀ (fuel attempt : Nat) (le : Option String) (sleeps : List Nat),
      (∀ i, attempt ≤ i → i < attempt + fuel →
        ∃ b, resp i = .http 429 b) →
      checkLoop resp mr fuel attempt le sleeps =
        { attempts := attempt + fuel,
          sleeps := sleeps ++ (List.range' attempt fuel).map (fun a => 2 ^ a),
          outcome := .apiError mr le } := by
  intro fuel
  induction fuel with
  | zero => intro attempt le sleeps _; simp [checkLoop]
  | succ f ih =>
      intro attempt le sleeps h
      obtain ⟨b, hb⟩ := h attempt (Nat.le_refl _) (by omega)
      rw [checkLoop, hb]
      simp only [show (429 : Nat) ≠ 200 by decide, if_false, if_true,
        reduceIte]
      rw [ih (attempt + 1) le (sleeps ++ [2 ^ attempt])
        (fun i h1 h2 => h i (by omega) (by omega))]
      have ha : attempt + 1 + f = attempt + (f + 1) := by omega
      rw [ha, List.range'_succ]
      simp

/-- C7 (observed behaviour, contradicting the claim): every `check_imei`
invocation — for any configuration and any provider behaviour, in
particular one answering HTTP 429 on every attempt — raises
`AttributeError` while building `params` (`self.config.imei_api_key`,
an attribute `app/config.py`'s `Settings` does not define), before the
first HTTP attempt: zero attempts, no backoff sleeps, and no `APIError`.
The retry loop itself, were it reached, would show the claimed behaviour
(`checkLoop_always_429`), so the loop is not where the claim fails. -/
theorem checker_crashes_before_first_attempt (cfg : Settings)
    (resp : Nat → ProviderResponse) :
    check_imei cfg resp =
      { attempts := 0, sleeps := [],
        outcome := .attributeError "imei_api_key" } := rfl

theorem is_owner_false_of_ne (cfg : Settings) (uid : Int)
    (h : uid ≠ cfg.owner_id) : _is_owner cfg uid = false := by
  unfold _is_owner
  exact beq_eq_false_iff_ne.mpr h

/-- C3: a non-owner whose balance is below the service price is stopped at
the balance gate: the provider is never called, `update_user_query` is never
called, the insufficient-balance message is shown, the session is cleared,
and the stored balance, counter and history are untouched (only the profile
fields are refreshed by `get_or_create_user`). -/
theorem insufficient_balance_aborts (cfg : Settings) (db : Store)
    (now : String) (from_user : TgUser) (text : String) (service : Service)
    (u : UserData) (c : String) (resp : Nat → ProviderResponse)
    (unescape : String → String)
    (hv : validate_imei (String.mk (pyStrip text.toList)) = (true, c))
    (hu : db from_user.id = some u)
    (hbal : u.balance < service.price)
    (howner : from_user.id ≠ cfg.owner_id) :
    handle_imei_input cfg db now from_user text (some service) resp unescape =
      { db := Store.set db from_user.id
          { u with
            username := from_user.username,
            first_name := from_user.first_name,
            last_name := from_user.last_name,
            last_activity := now },
        messages := [.insufficientBalance u.balance service.price,
          .mainMenuPrompt],
        provider_called := false, state_cleared := true,
        ledger_calls := [] } ∧
    (∃ u', (handle_imei_input cfg db now from_user text (some service) resp
        unescape).db from_user.id = some u' ∧
      u'.balance = u.balance ∧ u'.total_queries = u.total_queries ∧
      u'.query_history = u.query_history) := by
  have hrun : handle_imei_input cfg db now from_user text (some service) resp
      unescape =
      { db := Store.set db from_user.id
          { u with
            username := from_user.username,
            first_name := from_user.first_name,
            last_name := from_user.last_name,
            last_activity := now },
        messages := [.insufficientBalance u.balance service.price,
          .mainMenuPrompt],
        provider_called := false, state_cleared := true,
        ledger_calls := [] } := by
    have ho : _is_owner cfg from_user.id = false :=
      is_owner_false_of_ne cfg from_user.id howner
    unfold handle_imei_input
    simp only [hv, get_or_create_user_some db now from_user.id
      from_user.username from_user.first_name from_user.last_name u hu,
      reduceIte]
    rw [if_pos (And.intro hbal ho)]
    simp
  refine ⟨hrun, ?_⟩
  rw [hrun]
  exact ⟨_, Store.get_set_same .., rfl, rfl, rfl⟩

theorem insufficient_balance_aborts_witness :
    handle_imei_input w3Cfg w3Db "t2" { id := 1 } "12345678" (some w3Svc)
        (fun _ => .http 200 {}) id =
      { db := Store.set w3Db 1
          { w3User with
            username := none,
            first_name := none,
            last_name := none,
            last_activity := "t2" },
        messages := [.insufficientBalance w3User.balance w3Svc.price,
          .mainMenuPrompt],
        provider_called := false, state_cleared := true,
        ledger_calls := [] } ∧
    (∃ u', (handle_imei_input w3Cfg w3Db "t2" { id := 1 } "12345678"
        (some w3Svc) (fun _ => .http 200 {}) id).db 1 = some u' ∧
      u'.balance = w3User.balance ∧ u'.total_queries = w3User.total_queries ∧
      u'.query_history = w3User.query_history) :=
  insufficient_balance_aborts w3Cfg w3Db "t2" { id := 1 } "12345678" w3Svc
    w3User "12345678" (fun _ => .http 200 {}) id (by decide) rfl (by decide)
    (by decide)

/-- C8 (observed behaviour, contradicting the claim): the owner does
bypass the balance gate — with balance 0 and price 3.5 there is no
insufficient-balance abort and the transaction reaches the Verification
Client call — but `check_imei` raises `AttributeError` before issuing any
HTTP request, even against a provider that would answer 200 immediately;
`except Exception` swallows it, so no `update_user_query` call occurs:
no full-price debit, no success record, only the generic error message.
The success branch of `handle_imei_input` implementing the claimed
accounting is dead code. -/
theorem owner_bypass_reaches_call_but_crash_prevents_debit :
    (handle_imei_input w3Cfg w8Db "t3" { id := 7655366089, username := some "owner" }
      "490154203237518" (some w8Svc) (fun _ => .http 200 {}) id).provider_called
      = true ∧
    (handle_imei_input w3Cfg w8Db "t3" { id := 7655366089, username := some "owner" }
      "490154203237518" (some w8Svc) (fun _ => .http 200 {}) id).messages =
      [.processing "7518" w8Svc.price, .unexpectedError,
       .anotherQueryPrompt] ∧
    (handle_imei_input w3Cfg w8Db "t3" { id := 7655366089, username := some "owner" }
      "490154203237518" (some w8Svc) (fun _ => .http 200 {}) id).ledger_calls
      = [] ∧
    (handle_imei_input w3Cfg w8Db "t3" { id := 7655366089, username := some "owner" }
      "490154203237518" (some w8Svc) (fun _ => .http 200 {}) id).db
      7655366089 = some { w8User with last_activity := "t3" } ∧
    (handle_imei_input w3Cfg w8Db "t3" { id := 7655366089, username := some "owner" }
      "490154203237518" (some w8Svc) (fun _ => .http 200 {}) id).state_cleared
      = true := by
  decide

/-- C2 (observed behaviour, contradicting the claim): when the checker
exhausts its retries against an always-429 provider and raises its
`APIError`, `handle_imei_input` does **not** catch it as `APIError` — the
`except APIError` clause refers to the distinct class defined locally in
`bot_manager.py`, which is never raised — so the exception lands in
`except Exception`: no `update_user_query` call is made (`ledger_calls`
is empty, `total_queries`, balance and history are unchanged) and the
user sees the generic unexpected-error message instead of the provider
error text. -/
theorem provider_error_swallowed_not_recorded :
    (handle_imei_input w3Cfg c2Db "t2" { id := 1 } "12345678" (some c2Svc)
      (fun _ => .http 429 {}) id).ledger_calls = [] ∧
    (handle_imei_input w3Cfg c2Db "t2" { id := 1 } "12345678" (some c2Svc)
      (fun _ => .http 429 {}) id).messages =
      [.processing "5678" (mkRat 1 2), .unexpectedError,
       .anotherQueryPrompt] ∧
    (handle_imei_input w3Cfg c2Db "t2" { id := 1 } "12345678" (some c2Svc)
      (fun _ => .http 429 {}) id).db 1 =
      some { c2User with last_activity := "t2" } ∧
    (handle_imei_input w3Cfg c2Db "t2" { id := 1 } "12345678" (some c2Svc)
      (fun _ => .http 429 {}) id).provider_called = true := by
  decide

/-- C9: the formatter is a total function of the payload; when the raw
result body is empty the cleaned body degrades to the "no information"
placeholder; the body included in the output is `clean_result[:1500]`
(at most 1500 characters) and the truncation marker is appended exactly
when the cleaned body exceeds 1500 characters. -/
theorem formatter_total_truncates_and_degrades (unescape : String → String)
    (rj : ProviderPayload) :
    (rj.result.getD "" = "" →
      _clean_html_content unescape (rj.result.getD "") =
        "No hay información disponible") ∧
    (pyTake (_clean_html_content unescape (rj.result.getD "")) 1500).length
      ≤ 1500 ∧
    format_imei_response unescape rj =
      formatHeader rj ++
        (if (_clean_html_content unescape (rj.result.getD "")).isEmpty then ""
         else "\n📋 <b>Detalles:</b>\n<pre>" ++
           pyTake (_clean_html_content unescape (rj.result.getD "")) 1500 ++
           "</pre>" ++
           (if 1500 < (_clean_html_content unescape (rj.result.getD "")).length
            then "\n<i>... (resultado truncado)</i>" else "")) := by
  refine ⟨?_, ?_, ?_⟩
  · intro h
    rw [h]
    rfl
  · show (((_clean_html_content unescape (rj.result.getD "")).toList.take
      1500).length) ≤ 1500
    rw [List.length_take]
    omega
  · unfold format_imei_response
    cases he : (_clean_html_content unescape (rj.result.getD "")).isEmpty
    · simp only [he, Bool.not_false, if_true, if_false, Bool.false_eq_true,
        reduceIte]
      by_cases hl :
          1500 < (_clean_html_content unescape (rj.result.getD "")).length
      · rw [if_pos hl, if_pos hl]
        simp [String.append_assoc]
      · rw [if_neg hl, if_neg hl]
        simp [String.append_assoc, String.append_empty]
    · simp [he, String.append_empty]

theorem formatter_total_truncates_and_degrades_witness :
    _clean_html_content id
        ((({} : ProviderPayload)).result.getD "") =
      "No hay información disponible" :=
  (formatter_total_truncates_and_degrades id {}).1 rfl

end App
